import Mathlib

/-!
Verification development for the plugin-hosting core (src/plugin.ts) and the
accessory identity wrapper (src/platformAccessory.ts).

The TypeScript code is embedded shallowly:

* JavaScript objects read through optional keys become `Option` fields; an
  absent key is `none`.  JavaScript truthiness on strings (`""` is falsy) is
  `strTruthy`; `a || b` on such values is `jsOrS`.
* The record types read from `package.json` (`engines`, `dependencies`,
  `peerDependencies`) become association lists `List (String × String)`.
* Mutation of `this` becomes explicit state passing: an operation on the
  `Plugin` class takes a `Plugin` value and returns the updated value.
* Logging and the dynamic module import performed by `load` become an explicit
  effect list, so that "no module was imported" is the absence of an
  `Effect.importModule` entry.
* External collaborators (semver `satisfies`, `require`/dynamic `import`,
  `PluginManager.getPlatformName`, the hap-nodejs `Accessory`) are not part of
  the two source files; they are passed in as function parameters.
-/

/-- Association-list lookup, the embedding of `Map.get` / property access on a
JavaScript object used as a record. -/
def lookupKV {α : Type} : List (String × α) → String → Option α
  | [], _ => none
  | (k, v) :: rest, key => if k = key then some v else lookupKV rest key

/-- Association-list update, the embedding of `Map.set` / property assignment:
replaces the value of an existing key, otherwise appends the pair. -/
def setKey {α : Type} : List (String × α) → String → α → List (String × α)
  | [], key, v => [(key, v)]
  | (k, w) :: rest, key, v =>
    if k = key then (k, v) :: rest else (k, w) :: setKey rest key v

/-- JavaScript truthiness of a possibly absent string: `undefined` and `""`
are falsy, every other string is truthy. -/
def strTruthy : Option String → Bool
  | none => false
  | some s => s ≠ ""

/-- JavaScript `a || b` on possibly absent strings: `a` when truthy, else `b`. -/
def jsOrS (a b : Option String) : Option String :=
  if strTruthy a then a else b

/-- Reading key `k` of a possibly absent string record and testing truthiness:
the result is `some v` exactly when `r` exists, holds `k`, and the value is a
nonempty string.  This is the embedding of patterns such as
`context.engines && context.engines.homebridge`. -/
def truthyLookup (r : Option (List (String × String))) (k : String) : Option String :=
  match r with
  | none => none
  | some l =>
    match lookupKV l k with
    | none => none
    | some v => if v = "" then none else some v

/-- Value of one key of a conditional-exports table as the JavaScript code
sees it: absent (`undefined`), a string, or a nested conditional table whose
own keys (`import`, `require`, `node`, `default`, in this argument order) are
possibly absent strings. -/
inductive EVal where
  | undef : EVal
  | str : String → EVal
  | tbl : Option String → Option String → Option String → Option String → EVal
deriving DecidableEq, Repr

/-- JavaScript truthiness of an `EVal`: `undefined` is falsy, a string is
truthy when nonempty, an object is always truthy. -/
def EVal.truthy : EVal → Bool
  | .undef => false
  | .str s => s ≠ ""
  | .tbl _ _ _ _ => true

/-- JavaScript `a || b` on `EVal`. -/
def evalOr (a b : EVal) : EVal :=
  if a.truthy then a else b

/-- The `exports` field of a manifest: either a plain string or a table whose
keys `import`, `require`, `node`, `default`, `"."` (in this argument order)
each hold an `EVal`. -/
inductive ExportsField where
  | str : String → ExportsField
  | tbl : EVal → EVal → EVal → EVal → EVal → ExportsField
deriving DecidableEq, Repr

/-- The manifest fields consumed by `plugin.ts` (interface `PackageJSON`). -/
structure PackageJSON where
  version : Option String
  main : Option String
  exports : Option ExportsField
  type : Option String
  engines : Option (List (String × String))
  dependencies : Option (List (String × String))
  peerDependencies : Option (List (String × String))
deriving DecidableEq, Repr

/-- The value of `this.main` directly after the `if (packageJSON.exports)`
block of the `Plugin` constructor (plugin.ts lines 61-84).  `this.main` starts
as `""`; the block is skipped when `exports` is absent or falsy.  Inside the
table branch the code evaluates the chain
`exports.import || exports.require || exports.node || exports.default || exports["."]`;
when the chain value is not a string it reads `.import` of it, which is a
TypeError (`Except.error`) when the chain value is `undefined`.  The result
`none` stands for `this.main = undefined` (all nested keys falsy). -/
def Plugin.mainAfterExports (pkg : PackageJSON) : Except Unit (Option String) :=
  match pkg.exports with
  | none => .ok (some "")
  | some (.str s) =>
    if s = "" then .ok (some "")
    else .ok (some s)
  | some (.tbl imp req node dflt dot) =>
    let chain := evalOr (evalOr (evalOr (evalOr imp req) node) dflt) dot
    match chain with
    | .str s => .ok (some s)
    | .undef => .error ()
    | .tbl ni nr nn nd =>
      if strTruthy ni then .ok ni
      else .ok (jsOrS (jsOrS nr nn) nd)

/-- The fallback `packageJSON.main || "./index.js"` (plugin.ts line 88). -/
def fallbackMain (pkg : PackageJSON) : String :=
  if strTruthy pkg.main then pkg.main.getD "" else "./index.js"

/-- The final value of `this.main` after the constructor's entry-point
resolution (plugin.ts lines 61-89): the exports block result when truthy,
else the fallback.  An `Except.error` is the TypeError described in
`Plugin.mainAfterExports`. -/
def Plugin.resolvedMain (pkg : PackageJSON) : Except Unit String :=
  match Plugin.mainAfterExports pkg with
  | .error e => .error e
  | .ok m => .ok (if strTruthy m then m.getD "" else fallbackMain pkg)

/-- First truthy element of a list of `EVal`, else the final value. -/
def firstTruthyE : List EVal → EVal → EVal
  | [], last => last
  | a :: rest, last => if a.truthy then a else firstTruthyE rest last

/-- First truthy element of a list of possibly absent strings, else the final
value. -/
def firstTruthyS : List (Option String) → Option String → Option String
  | [], last => last
  | a :: rest, last => if strTruthy a then a else firstTruthyS rest last

/-- Entry-point resolution as the spec words it (amended to JavaScript
truthiness): a nonempty string `exports` is the entry point; a table selects
in order `import`, `require`, `node`, `default`, then the `"."` subpath,
skipping falsy values; a selected nested table prefers its `import` key when
truthy, else the first truthy of `require`, `node`, `default`; when all five
table keys are falsy and the `"."` value is absent the resolution fails with a
type error; when the exports step yields no truthy entry the entry point is
`main` when nonempty, else `"./index.js"`. -/
def specEntryPoint (pkg : PackageJSON) : Except Unit String :=
  match pkg.exports with
  | none => .ok (fallbackMain pkg)
  | some (.str s) =>
    if s = "" then .ok (fallbackMain pkg) else .ok s
  | some (.tbl imp req node dflt dot) =>
    match firstTruthyE [imp, req, node, dflt] dot with
    | .undef => .error ()
    | .str s => if s = "" then .ok (fallbackMain pkg) else .ok s
    | .tbl ni nr nn nd =>
      match (if strTruthy ni then ni else firstTruthyS [nr, nn] nd) with
      | some s => if s = "" then .ok (fallbackMain pkg) else .ok s
      | none => .ok (fallbackMain pkg)

/-- Result of an accessory or platform plugin constructor registration; the
constructors themselves are opaque to this core, modelled as numbers. -/
abbrev PluginConstructor := Nat

/-- A dynamic platform plugin instance, opaque to this core. -/
abbrev DynamicPlatformPlugin := Nat

/-- The capability object handed to a plugin initializer, opaque here. -/
abbrev API := Nat

/-- A plugin initializer: one callable taking the capability object and
either succeeding or failing; `Plugin.initializePlugin` must return its
outcome unchanged. -/
abbrev PluginInitializer := API → Except String Unit

/-- The transient `loadContext` bag built by the constructor. -/
structure LoadContext where
  engines : Option (List (String × String))
  dependencies : Option (List (String × String))

/-- The mutable state of one `Plugin` instance (plugin.ts lines 30-54). -/
structure Plugin where
  pluginName : String
  scope : Option String
  pluginPath : String
  version : String
  main : String
  isESM : Bool
  disabled : Bool
  loadContext : Option LoadContext
  pluginInitializer : Option PluginInitializer
  registeredAccessories : List (String × PluginConstructor)
  registeredPlatforms : List (String × PluginConstructor)
  activeDynamicPlatforms : List (String × List DynamicPlatformPlugin)

/-- JavaScript `s.endsWith(post)`, embedded on the character lists of the
two strings so that it evaluates by reduction. -/
def strEndsWith (s post : String) : Bool :=
  post.data.isSuffixOf s.data

/-- The "very temporary fix for first wave of plugins" (plugin.ts lines
95-98): when `peerDependencies` is present (any object is truthy) and
`engines.homebridge` is falsy, `engines` is created if missing and its
`homebridge` key is assigned the `homebridge` peer-dependency value.  When
that peer value is itself `undefined`, the assignment leaves the key
observationally absent. -/
def applyPeerDepShim (pkg : PackageJSON) : PackageJSON :=
  if pkg.peerDependencies.isSome && (truthyLookup pkg.engines "homebridge").isNone then
    match lookupKV (pkg.peerDependencies.getD []) "homebridge" with
    | some v => { pkg with engines := some (setKey (pkg.engines.getD []) "homebridge" v) }
    | none => { pkg with engines := some (pkg.engines.getD []) }
  else pkg

/-- The `Plugin` constructor (plugin.ts lines 55-104): resolves the entry
point (an `Except.error` is the TypeError possible in that resolution),
classifies the module format, applies the peer-dependency shim, and stores
the transient load context. -/
def Plugin.construct (name : String) (path : String) (packageJSON : PackageJSON)
    (scope : Option String) : Except Unit Plugin :=
  match Plugin.resolvedMain packageJSON with
  | .error e => .error e
  | .ok mainResolved =>
    let pkg := applyPeerDepShim packageJSON
    .ok
      { pluginName := name
        scope := scope
        pluginPath := path
        version := if strTruthy pkg.version then pkg.version.getD "" else "0.0.0"
        main := mainResolved
        isESM := strEndsWith mainResolved ".mjs" ||
          (strEndsWith mainResolved ".js" && pkg.type == some "module")
        disabled := false
        loadContext := some { engines := pkg.engines, dependencies := pkg.dependencies }
        pluginInitializer := none
        registeredAccessories := []
        registeredPlatforms := []
        activeDynamicPlatforms := [] }

/-- `getPluginIdentifier` (plugin.ts lines 106-108): scope prefix plus name. -/
def Plugin.getPluginIdentifier (p : Plugin) : String :=
  (if strTruthy p.scope then p.scope.getD "" ++ "/" else "") ++ p.pluginName

/-- Observable side effects of the plugin operations: log lines and the
dynamic module import performed by `load`. -/
inductive Effect where
  | logInfo : String → Effect
  | logWarn : String → Effect
  | logError : String → Effect
  | importModule : String → Effect
deriving DecidableEq, Repr

/-- Message of the duplicate accessory registration error (plugin.ts line 116). -/
def dupAccessoryMsg (p : Plugin) (name : String) : String :=
  "Plugin " ++ Plugin.getPluginIdentifier p ++ " tried to register an accessory " ++
    name ++ " which has already been registered!"

/-- Message of the duplicate platform registration error (plugin.ts line 128). -/
def dupPlatformMsg (p : Plugin) (name : String) : String :=
  "Plugin " ++ Plugin.getPluginIdentifier p ++ " tried to register a platform " ++
    name ++ " which has already been registered!"

/-- Message of the assertion failing when `load` runs without a context
(plugin.ts line 187). -/
def illegalStateMsg : String := "Reached illegal state. Plugin state is undefined!"

/-- Message of the fatal missing `engines.homebridge` error (plugin.ts line 192). -/
def enginesMissingMsg (p : Plugin) : String :=
  "Plugin " ++ p.pluginPath ++ " does not contain the homebridge package in engines."

/-- Message logged on a homebridge version-range mismatch (plugin.ts lines 201-203). -/
def hbMismatchMsg (p : Plugin) (range : String) : String :=
  "The plugin " ++ p.pluginName ++ " requires a Homebridge version of " ++ range ++
    " which does not satisfy the current Homebridge version."

/-- Message logged on a node version-range mismatch (plugin.ts lines 208-209). -/
def nodeMismatchMsg (p : Plugin) (range : String) : String :=
  "The plugin " ++ p.pluginName ++ " requires a Node.js version of " ++ range ++
    " which does not satisfy the current Node.js version."

/-- Message logged when homebridge or hap-nodejs appear in `dependencies`
(plugin.ts lines 214-216). -/
def bundledDepsMsg (p : Plugin) : String :=
  "The plugin " ++ p.pluginName ++ " defines homebridge and/or hap-nodejs in their dependencies section."

/-- Message of the fatal missing-initializer error (plugin.ts line 235). -/
def noInitializerMsg (p : Plugin) : String :=
  "Plugin " ++ p.pluginPath ++ " does not export a initializer function from main."

/-- Message of the usage error raised when the plugin is used before `load`
stored an initializer (plugin.ts line 241). -/
def notLoadedMsg : String := "Tried to initialize a plugin which has not been loaded yet!"

/-- `registerAccessory` (plugin.ts lines 114-124): duplicate names fail with
the registration error and leave the state unchanged; otherwise the
registration is logged (unless the plugin is disabled) and stored. -/
def Plugin.registerAccessory (p : Plugin) (name : String) (ctor : PluginConstructor) :
    Plugin × List Effect × Except String Unit :=
  match lookupKV p.registeredAccessories name with
  | some _ => (p, [], .error (dupAccessoryMsg p name))
  | none =>
    let effs := if p.disabled then []
      else [Effect.logInfo ("Registering accessory " ++ Plugin.getPluginIdentifier p ++ "." ++ name)]
    ({ p with registeredAccessories := setKey p.registeredAccessories name ctor }, effs, .ok ())

/-- `registerPlatform` (plugin.ts lines 126-136), same shape for platforms. -/
def Plugin.registerPlatform (p : Plugin) (name : String) (ctor : PluginConstructor) :
    Plugin × List Effect × Except String Unit :=
  match lookupKV p.registeredPlatforms name with
  | some _ => (p, [], .error (dupPlatformMsg p name))
  | none =>
    let effs := if p.disabled then []
      else [Effect.logInfo ("Registering platform " ++ Plugin.getPluginIdentifier p ++ "." ++ name)]
    ({ p with registeredPlatforms := setKey p.registeredPlatforms name ctor }, effs, .ok ())

/-- `assignDynamicPlatform` (plugin.ts lines 165-177): normalizes the
identifier through the external `PluginManager.getPlatformName` (parameter
`norm`), creates the instance list when missing, and prepends the instance. -/
def Plugin.assignDynamicPlatform (norm : String → String) (p : Plugin)
    (platformIdentifier : String) (platformPlugin : DynamicPlatformPlugin) : Plugin :=
  let name := norm platformIdentifier
  let platforms := (lookupKV p.activeDynamicPlatforms name).getD []
  { p with activeDynamicPlatforms :=
      setKey p.activeDynamicPlatforms name (platformPlugin :: platforms) }

/-- `getActiveDynamicPlatform` (plugin.ts lines 179-183):
`platforms && platforms[0]`, that is the head of the instance list when the
platform has an entry. -/
def Plugin.getActiveDynamicPlatform (p : Plugin) (platformName : String) :
    Option DynamicPlatformPlugin :=
  (lookupKV p.activeDynamicPlatforms platformName).bind List.head?

/-- Result of the dynamic module import as `load` inspects it (plugin.ts
lines 228-236): a directly callable module, an object with a callable
`default`, a truthy object without one, or a falsy module value. -/
inductive PluginModule where
  | fnModule : PluginInitializer → PluginModule
  | objWithDefault : PluginInitializer → PluginModule
  | objNoDefault : PluginModule
  | nullish : PluginModule

/-- `path.join(this.pluginPath, this.main)` (plugin.ts line 219), embedded as
plain concatenation with a separator; the claims never inspect the joined
path beyond identity. -/
def pathJoin (a b : String) : String := a ++ "/" ++ b

/-- `load` (plugin.ts lines 185-237).  `hbSat r` stands for
`satisfies(getVersion(), r, { includePrerelease: true })`, `nodeSat r` for
`satisfies(process.version, r)`, and `importModule` for the
`require`/dynamic-`import` of the entry module; all three are external.
Returns the updated state, the ordered effect list, and the outcome.  The
assertion on a missing context, the discard of the context, the fatal
`engines.homebridge` gate, the three non-fatal log checks, the import, and
the initializer extraction follow the source order. -/
def Plugin.load (p : Plugin) (hbSat : String → Bool) (nodeSat : String → Bool)
    (importModule : String → PluginModule) : Plugin × List Effect × Except String Unit :=
  match p.loadContext with
  | none => (p, [], .error illegalStateMsg)
  | some context =>
    let p1 := { p with loadContext := none }
    match truthyLookup context.engines "homebridge" with
    | none => (p1, [], .error (enginesMissingMsg p1))
    | some versionRequired =>
      let e1 := if hbSat versionRequired then []
        else [Effect.logError (hbMismatchMsg p1 versionRequired)]
      let e2 := match truthyLookup context.engines "node" with
        | some nodeRange =>
          if nodeSat nodeRange then [] else [Effect.logWarn (nodeMismatchMsg p1 nodeRange)]
        | none => []
      let e3 := if (truthyLookup context.dependencies "homebridge").isSome ||
          (truthyLookup context.dependencies "hap-nodejs").isSome then
          [Effect.logError (bundledDepsMsg p1)]
        else []
      let mainPath := pathJoin p1.pluginPath p1.main
      let e4 := [Effect.importModule mainPath]
      match importModule mainPath with
      | .fnModule f => ({ p1 with pluginInitializer := some f }, e1 ++ e2 ++ e3 ++ e4, .ok ())
      | .objWithDefault f => ({ p1 with pluginInitializer := some f }, e1 ++ e2 ++ e3 ++ e4, .ok ())
      | .objNoDefault => (p1, e1 ++ e2 ++ e3 ++ e4, .error (noInitializerMsg p1))
      | .nullish => (p1, e1 ++ e2 ++ e3 ++ e4, .error (noInitializerMsg p1))

/-- The `initialize` method (plugin.ts lines 239-245): a usage error when no
initializer was stored by `load`, otherwise exactly the initializer outcome
on the capability argument.  (Named with a suffix because the source method
name collides with a Lean keyword.) -/
def Plugin.initializePlugin (p : Plugin) (api : API) : Except String Unit :=
  match p.pluginInitializer with
  | none => .error notLoadedMsg
  | some f => f api

/-- The hap-nodejs `Accessory` delegate as this core observes it: the
identity fields and service list the wrapper mirrors, plus an opaque
remainder standing for all protocol state this core never touches.  The
delegate lives outside the two source files. -/
structure Accessory where
  displayName : String
  UUID : String
  category : Nat
  services : List Nat
  rest : Nat
deriving DecidableEq, Repr

/-- The record produced by the external `Accessory.serialize` (hap-nodejs
interface `SerializedAccessory`): identity, category and an opaque remainder
(service definitions and the like).  Its keys are disjoint from the three
keys `PlatformAccessory.serialize` adds. -/
structure SerializedAccessory where
  displayName : String
  UUID : String
  category : Nat
  rest : Nat
deriving DecidableEq, Repr

/-- User context stored on a handle, opaque to this core. -/
abbrev AccessoryContext := List (String × String)

/-- `SerializedPlatformAccessory` (platformAccessory.ts lines 21-27): the
flat persisted record, `plugin`/`platform`/`context` plus every field of the
delegate record.  `plugin` and `platform` are written through non-null
assertions in the source, so they stay possibly absent here. -/
structure SerializedPlatformAccessory where
  plugin : Option String
  platform : Option String
  context : AccessoryContext
  acc : SerializedAccessory
deriving DecidableEq, Repr

/-- `Categories.OTHER`, the hap-nodejs default category value. -/
def CategoriesOTHER : Nat := 1

/-- JavaScript truthiness of the optional numeric `category` argument
(`if (category)`): absent or zero is falsy. -/
def catTruthy : Option Nat → Bool
  | none => false
  | some c => c ≠ 0

/-- The `PlatformAccessory` state (platformAccessory.ts lines 42-66):
ownership tags, the delegate, and the mirrored identity fields. -/
structure PlatformAccessory where
  associatedPlugin : Option String
  associatedPlatform : Option String
  hap : Accessory
  displayName : String
  UUID : String
  category : Nat
  services : List Nat
  context : AccessoryContext
deriving DecidableEq, Repr

/-- The `PlatformAccessory` constructor (platformAccessory.ts lines 68-91).
`mkAcc` is the external `new Accessory(displayName, uuid)`;
`injectedAccessory` is the current content of the static single-slot seam:
when occupied the handle adopts that delegate instead of building a fresh
one.  A truthy `category` argument is written into the delegate; the mirror
fields then copy the delegate, with `category || Categories.OTHER` for the
handle category.  The identify-forwarding listener registered here is
modelled by `identifyForward`. -/
def PlatformAccessory.construct (mkAcc : String → String → Accessory)
    (injectedAccessory : Option Accessory) (displayName : String) (uuid : String)
    (category : Option Nat) : PlatformAccessory :=
  let hap0 := match injectedAccessory with
    | some acc => acc
    | none => mkAcc displayName uuid
  let hap := if catTruthy category then { hap0 with category := category.getD 0 } else hap0
  { associatedPlugin := none
    associatedPlatform := none
    hap := hap
    displayName := hap.displayName
    UUID := hap.UUID
    category := if catTruthy category then category.getD 0 else CategoriesOTHER
    services := hap.services
    context := [] }

/-- `updateDisplayName` (platformAccessory.ts lines 93-98): a falsy name is a
no-op, otherwise both the mirror and the delegate are renamed. -/
def PlatformAccessory.updateDisplayName (pa : PlatformAccessory) (name : String) :
    PlatformAccessory :=
  if name ≠ "" then
    { pa with displayName := name, hap := { pa.hap with displayName := name } }
  else pa

/-- `PlatformAccessory.serialize` (platformAccessory.ts lines 170-178):
copies the handle display name into the delegate, then builds the flat
record from `plugin`, `platform`, `context` and the delegate record
(`accSer` is the external `Accessory.serialize`).  The delegate mutation is
returned as the updated handle. -/
def PlatformAccessory.serialize (accSer : Accessory → SerializedAccessory)
    (pa : PlatformAccessory) : PlatformAccessory × SerializedPlatformAccessory :=
  let pa1 := { pa with hap := { pa.hap with displayName := pa.displayName } }
  (pa1,
    { plugin := pa1.associatedPlugin
      platform := pa1.associatedPlatform
      context := pa1.context
      acc := accSer pa1.hap })

/-- `PlatformAccessory.deserialize` (platformAccessory.ts lines 180-193):
rebuilds the delegate through the external `Accessory.deserialize` (`accDe`)
from the persisted record, occupies the injection slot with it, constructs
the handle (which therefore adopts it), clears the slot, and overlays
`plugin`, `platform`, `context` and the record category.  The slot before
the call is an argument and the slot after the call is returned, making its
lifetime provable. -/
def PlatformAccessory.deserialize (accDe : SerializedAccessory → Accessory)
    (mkAcc : String → String → Accessory) (_slot : Option Accessory)
    (json : SerializedPlatformAccessory) : Option Accessory × PlatformAccessory :=
  let accessory := accDe json.acc
  let slot1 : Option Accessory := some accessory
  let pa0 := PlatformAccessory.construct mkAcc slot1 accessory.displayName accessory.UUID none
  let slot2 : Option Accessory := none
  let pa := { pa0 with
    associatedPlugin := json.plugin
    associatedPlatform := json.platform
    context := json.context
    category := json.acc.category }
  (slot2, pa)

/-- One runtime argument of an event-listener call: the pairing flag or the
inert backwards-compatibility callback passed by the forwarder. -/
inductive JsArg where
  | boolArg : Bool → JsArg
  | fnArg : JsArg
deriving DecidableEq, Repr

/-- Observable steps of the identify forwarding: a delivery of the re-emitted
identify event to one attached listener with its runtime argument list, or
the invocation of the delegate's original completion callback. -/
inductive IdentifyEv where
  | delivered : Nat → List JsArg → IdentifyEv
  | completionCallback : IdentifyEv
deriving DecidableEq, Repr

/-- A synchronous `emit`: the event is delivered to every attached listener
in registration order, each receiving the same runtime argument list. -/
def emitToListeners (listeners : List Nat) (args : List JsArg) : List IdentifyEv :=
  listeners.map (fun l => IdentifyEv.delivered l args)

/-- The identify forwarding handler registered by the constructor
(platformAccessory.ts lines 84-90): on an identify notification carrying the
pairing flag and a completion callback, re-emit the identify event on the
handle — the emit call passes `paired` and an empty function as arguments —
and then invoke the original callback. -/
def identifyForward (listeners : List Nat) (paired : Bool) : List IdentifyEv :=
  emitToListeners listeners [JsArg.boolArg paired, JsArg.fnArg] ++
    [IdentifyEv.completionCallback]

/-- Manifest with every optional field absent. -/
def pkgAllNone : PackageJSON :=
  { version := none, main := none, exports := none, type := none,
    engines := none, dependencies := none, peerDependencies := none }

/-- Manifest declaring only a homebridge peer dependency. -/
def pkgPeer : PackageJSON :=
  { pkgAllNone with peerDependencies := some [("homebridge", "^1.0.0")] }

/-- The descriptor the constructor builds from `pkgAllNone`. -/
def emptyPlugin : Plugin :=
  { pluginName := "example"
    scope := none
    pluginPath := "/plugins/example"
    version := "0.0.0"
    main := "./index.js"
    isESM := false
    disabled := false
    loadContext := some { engines := none, dependencies := none }
    pluginInitializer := none
    registeredAccessories := []
    registeredPlatforms := []
    activeDynamicPlatforms := [] }

/-- The descriptor the constructor builds from `pkgPeer`. -/
def peerPlugin : Plugin :=
  { emptyPlugin with
      loadContext := some { engines := some [("homebridge", "^1.0.0")], dependencies := none } }

/-- A trivial always-succeeding initializer. -/
def okInit : PluginInitializer := fun _ => Except.ok ()

/-- `emptyPlugin` after a load stored `okInit`. -/
def loadedPlugin : Plugin :=
  { emptyPlugin with loadContext := none, pluginInitializer := some okInit }

/-- Manifest with an empty-string `exports` and a set `main`. -/
def pkgEmptyExports : PackageJSON :=
  { pkgAllNone with exports := some (ExportsField.str ""), main := some "lib/entry.js" }

/-- Manifest declaring a homebridge peer dependency with an empty range. -/
def pkgPeerEmpty : PackageJSON :=
  { pkgAllNone with peerDependencies := some [("homebridge", "")] }

/-- Delegate serializer used in witnesses: records the observable fields. -/
def accSer0 : Accessory → SerializedAccessory :=
  fun a => { displayName := a.displayName, UUID := a.UUID, category := a.category, rest := a.rest }

/-- Delegate deserializer used in witnesses: restores the observable fields
and an empty service list. -/
def accDe0 : SerializedAccessory → Accessory :=
  fun s => { displayName := s.displayName, UUID := s.UUID, category := s.category,
             services := [], rest := s.rest }

/-- Fresh-delegate builder used in witnesses. -/
def mkAcc0 : String → String → Accessory :=
  fun dn uuid => { displayName := dn, UUID := uuid, category := CategoriesOTHER,
                   services := [], rest := 0 }

/-- A registered, renamed handle used in witnesses.  Its mirror fields agree
with the delegate on `UUID` and `category`; the display name was renamed on
the handle and not yet pushed to the delegate. -/
def paW : PlatformAccessory :=
  { associatedPlugin := some "homebridge-example"
    associatedPlatform := some "ExamplePlatform"
    hap := { displayName := "Lamp", UUID := "uuid-1", category := 5, services := [2], rest := 9 }
    displayName := "Lamp renamed"
    UUID := "uuid-1"
    category := 5
    services := [2]
    context := [("foo", "bar")] }

theorem lookupKV_setKey_self {α : Type} (l : List (String × α)) (k : String) (v : α) :
    lookupKV (setKey l k v) k = some v := by
  induction l with
  | nil => simp [setKey, lookupKV]
  | cons h t ih =>
    obtain ⟨k2, w⟩ := h
    by_cases hk : k2 = k <;> simp [setKey, lookupKV, hk, ih]

theorem registerAccessory_fresh (p : Plugin) (name : String) (c : PluginConstructor)
    (h : lookupKV p.registeredAccessories name = none) :
    Plugin.registerAccessory p name c =
      ({ p with registeredAccessories := setKey p.registeredAccessories name c },
        (if p.disabled then []
          else [Effect.logInfo ("Registering accessory " ++ Plugin.getPluginIdentifier p ++ "." ++ name)]),
        Except.ok ()) := by
  simp [Plugin.registerAccessory, h]

theorem registerAccessory_dup (p : Plugin) (name : String) (c w : PluginConstructor)
    (h : lookupKV p.registeredAccessories name = some w) :
    Plugin.registerAccessory p name c = (p, [], Except.error (dupAccessoryMsg p name)) := by
  simp [Plugin.registerAccessory, h]

theorem registerPlatform_fresh (p : Plugin) (name : String) (c : PluginConstructor)
    (h : lookupKV p.registeredPlatforms name = none) :
    Plugin.registerPlatform p name c =
      ({ p with registeredPlatforms := setKey p.registeredPlatforms name c },
        (if p.disabled then []
          else [Effect.logInfo ("Registering platform " ++ Plugin.getPluginIdentifier p ++ "." ++ name)]),
        Except.ok ()) := by
  simp [Plugin.registerPlatform, h]

theorem registerPlatform_dup (p : Plugin) (name : String) (c w : PluginConstructor)
    (h : lookupKV p.registeredPlatforms name = some w) :
    Plugin.registerPlatform p name c = (p, [], Except.error (dupPlatformMsg p name)) := by
  simp [Plugin.registerPlatform, h]

/-- C4.  Duplicate registration: on any descriptor (disabled or not), a first
`registerAccessory` (resp. `registerPlatform`) with a fresh name succeeds and
stores the constructor; a second call with the same name fails with the
duplicate-registration error and leaves the state — in particular the stored
constructor — unchanged. -/
theorem duplicate_registration (p : Plugin) (name : String) (c1 c2 d1 d2 : PluginConstructor) :
    (lookupKV p.registeredAccessories name = none →
      (Plugin.registerAccessory p name c1).2.2 = Except.ok () ∧
      lookupKV (Plugin.registerAccessory p name c1).1.registeredAccessories name = some c1 ∧
      (Plugin.registerAccessory (Plugin.registerAccessory p name c1).1 name c2).2.2 =
        Except.error (dupAccessoryMsg (Plugin.registerAccessory p name c1).1 name) ∧
      (Plugin.registerAccessory (Plugin.registerAccessory p name c1).1 name c2).1 =
        (Plugin.registerAccessory p name c1).1) ∧
    (lookupKV p.registeredPlatforms name = none →
      (Plugin.registerPlatform p name d1).2.2 = Except.ok () ∧
      lookupKV (Plugin.registerPlatform p name d1).1.registeredPlatforms name = some d1 ∧
      (Plugin.registerPlatform (Plugin.registerPlatform p name d1).1 name d2).2.2 =
        Except.error (dupPlatformMsg (Plugin.registerPlatform p name d1).1 name) ∧
      (Plugin.registerPlatform (Plugin.registerPlatform p name d1).1 name d2).1 =
        (Plugin.registerPlatform p name d1).1) := by
  constructor
  · intro h
    have hstore : lookupKV (Plugin.registerAccessory p name c1).1.registeredAccessories name
        = some c1 := by
      rw [registerAccessory_fresh p name c1 h]
      exact lookupKV_setKey_self _ _ _
    refine ⟨?_, hstore, ?_, ?_⟩
    · rw [registerAccessory_fresh p name c1 h]
    · rw [registerAccessory_dup _ name c2 c1 hstore]
    · rw [registerAccessory_dup _ name c2 c1 hstore]
  · intro h
    have hstore : lookupKV (Plugin.registerPlatform p name d1).1.registeredPlatforms name
        = some d1 := by
      rw [registerPlatform_fresh p name d1 h]
      exact lookupKV_setKey_self _ _ _
    refine ⟨?_, hstore, ?_, ?_⟩
    · rw [registerPlatform_fresh p name d1 h]
    · rw [registerPlatform_dup _ name d2 d1 hstore]
    · rw [registerPlatform_dup _ name d2 d1 hstore]

/-- Witness for C4 at a concrete descriptor and names. -/
theorem duplicate_registration_witness :
    lookupKV emptyPlugin.registeredAccessories "Lock" = none ∧
    lookupKV emptyPlugin.registeredPlatforms "Lock" = none ∧
    (Plugin.registerAccessory emptyPlugin "Lock" 1).2.2 = Except.ok () ∧
    lookupKV (Plugin.registerAccessory emptyPlugin "Lock" 1).1.registeredAccessories "Lock" = some 1 ∧
    (Plugin.registerAccessory (Plugin.registerAccessory emptyPlugin "Lock" 1).1 "Lock" 2).2.2 =
      Except.error (dupAccessoryMsg (Plugin.registerAccessory emptyPlugin "Lock" 1).1 "Lock") ∧
    (Plugin.registerPlatform (Plugin.registerPlatform emptyPlugin "Lock" 3).1 "Lock" 4).1 =
      (Plugin.registerPlatform emptyPlugin "Lock" 3).1 := by
  have h := duplicate_registration emptyPlugin "Lock" 1 2 3 4
  have ha := h.1 rfl
  have hp := h.2 rfl
  exact ⟨rfl, rfl, ha.1, ha.2.1, ha.2.2.1, hp.2.2.2⟩

theorem assignDynamicPlatform_eq (norm : String → String) (p : Plugin)
    (pid : String) (x : DynamicPlatformPlugin) :
    Plugin.assignDynamicPlatform norm p pid x =
      { p with activeDynamicPlatforms := (setKey p.activeDynamicPlatforms (norm pid) (x :: (lookupKV p.activeDynamicPlatforms (norm pid)).getD [])) } := rfl

/-- C5.  Dynamic-platform stacking: instances are prepended, so after
assigning `a` then `b` under platform name `P` the active instance is `b`,
after a further `c` it is `c`, the full ordered list is `c`, `b`, `a` in
front of whatever was there before, and a name that was never assigned has
no active instance.  `norm` is the external identifier normalization, which
fixes a bare platform name. -/
theorem dynamic_platform_stacking (norm : String → String) (p : Plugin) (P Q : String)
    (a b c : DynamicPlatformPlugin) (hnorm : norm P = P) :
    (Plugin.getActiveDynamicPlatform
      (Plugin.assignDynamicPlatform norm (Plugin.assignDynamicPlatform norm p P a) P b) P =
        some b) ∧
    (Plugin.getActiveDynamicPlatform
      (Plugin.assignDynamicPlatform norm (Plugin.assignDynamicPlatform norm
        (Plugin.assignDynamicPlatform norm p P a) P b) P c) P = some c) ∧
    (lookupKV (Plugin.assignDynamicPlatform norm (Plugin.assignDynamicPlatform norm
        (Plugin.assignDynamicPlatform norm p P a) P b) P c).activeDynamicPlatforms P =
      some (c :: b :: a :: (lookupKV p.activeDynamicPlatforms P).getD [])) ∧
    (lookupKV p.activeDynamicPlatforms Q = none →
      Plugin.getActiveDynamicPlatform p Q = none) := by
  have h1 : lookupKV (Plugin.assignDynamicPlatform norm p P a).activeDynamicPlatforms P =
      some (a :: (lookupKV p.activeDynamicPlatforms P).getD []) := by
    rw [assignDynamicPlatform_eq, hnorm]
    exact lookupKV_setKey_self _ _ _
  have h2 : lookupKV (Plugin.assignDynamicPlatform norm
      (Plugin.assignDynamicPlatform norm p P a) P b).activeDynamicPlatforms P =
      some (b :: a :: (lookupKV p.activeDynamicPlatforms P).getD []) := by
    rw [assignDynamicPlatform_eq, hnorm, h1]
    exact lookupKV_setKey_self _ _ _
  have h3 : lookupKV (Plugin.assignDynamicPlatform norm (Plugin.assignDynamicPlatform norm
      (Plugin.assignDynamicPlatform norm p P a) P b) P c).activeDynamicPlatforms P =
      some (c :: b :: a :: (lookupKV p.activeDynamicPlatforms P).getD []) := by
    rw [assignDynamicPlatform_eq, hnorm, h2]
    exact lookupKV_setKey_self _ _ _
  refine ⟨?_, ?_, h3, ?_⟩
  · simp [Plugin.getActiveDynamicPlatform, h2]
  · simp [Plugin.getActiveDynamicPlatform, h3]
  · intro hq
    simp [Plugin.getActiveDynamicPlatform, hq]

/-- Witness for C5 at a concrete descriptor, identity normalization and
concrete instances. -/
theorem dynamic_platform_stacking_witness :
    (fun s => s) "Lights" = "Lights" ∧
    lookupKV emptyPlugin.activeDynamicPlatforms "Other" = none ∧
    (Plugin.getActiveDynamicPlatform
      (Plugin.assignDynamicPlatform (fun s => s)
        (Plugin.assignDynamicPlatform (fun s => s) emptyPlugin "Lights" 10) "Lights" 11) "Lights" =
        some 11) ∧
    (lookupKV (Plugin.assignDynamicPlatform (fun s => s) (Plugin.assignDynamicPlatform (fun s => s)
        (Plugin.assignDynamicPlatform (fun s => s) emptyPlugin "Lights" 10) "Lights" 11) "Lights" 12).activeDynamicPlatforms
        "Lights" = some [12, 11, 10]) ∧
    Plugin.getActiveDynamicPlatform emptyPlugin "Other" = none := by
  have h := dynamic_platform_stacking (fun s => s) emptyPlugin "Lights" "Other" 10 11 12 rfl
  exact ⟨rfl, rfl, h.1, h.2.2.1, h.2.2.2 rfl⟩

/-- C8.  Initialization contract: without a stored initializer the call
fails with the usage error (and, the operation being a pure read of the
state, the descriptor is unchanged); with a stored initializer the call
returns exactly the initializer's outcome on the capability argument, so an
initializer failure propagates unchanged. -/
theorem initialization_contract (p : Plugin) (api : API) (f : PluginInitializer) :
    (p.pluginInitializer = none →
      Plugin.initializePlugin p api = Except.error notLoadedMsg) ∧
    (p.pluginInitializer = some f →
      Plugin.initializePlugin p api = f api) := by
  constructor
  · intro h
    simp [Plugin.initializePlugin, h]
  · intro h
    simp [Plugin.initializePlugin, h]

/-- Witness for C8: the usage error on a never-loaded descriptor and the
pass-through of the stored initializer outcome on a loaded one. -/
theorem initialization_contract_witness :
    Plugin.initializePlugin emptyPlugin 0 = Except.error notLoadedMsg ∧
    Plugin.initializePlugin loadedPlugin 0 = Except.ok () := by
  refine ⟨(initialization_contract emptyPlugin 0 okInit).1 rfl, ?_⟩
  have h := (initialization_contract loadedPlugin 0 okInit).2 rfl
  rw [h]
  rfl

/-- C7.  Serialize record shape: serialization first copies the handle's
current display name into the delegate (the updated handle is the first
component), and the flat record holds the handle's own `plugin`, `platform`
and `context` values next to exactly the delegate's own serialization of the
renamed delegate — the two groups of fields are disjoint, so neither side
overwrites the other. -/
theorem serialize_record_shape (accSer : Accessory → SerializedAccessory)
    (pa : PlatformAccessory) :
    (PlatformAccessory.serialize accSer pa).1.hap =
      { pa.hap with displayName := pa.displayName } ∧
    (PlatformAccessory.serialize accSer pa).2.plugin = pa.associatedPlugin ∧
    (PlatformAccessory.serialize accSer pa).2.platform = pa.associatedPlatform ∧
    (PlatformAccessory.serialize accSer pa).2.context = pa.context ∧
    (PlatformAccessory.serialize accSer pa).2.acc =
      accSer { pa.hap with displayName := pa.displayName } :=
  ⟨rfl, rfl, rfl, rfl, rfl⟩

/-- C10.  Injection seam: whatever the slot held before, `deserialize`
returns with the slot cleared, and the handle it built adopted the delegate
rebuilt from the record; a handle constructed while the slot is empty gets a
fresh delegate built from its `displayName` and `uuid` arguments (identical
to it up to the optional category overlay, and equal to it when no category
argument is given). -/
theorem injection_seam (accDe : SerializedAccessory → Accessory)
    (mkAcc : String → String → Accessory) (slot : Option Accessory)
    (json : SerializedPlatformAccessory) (dn uuid : String) (cat : Option Nat) :
    (PlatformAccessory.deserialize accDe mkAcc slot json).1 = none ∧
    (PlatformAccessory.deserialize accDe mkAcc slot json).2.hap = accDe json.acc ∧
    (PlatformAccessory.construct mkAcc none dn uuid cat).hap.displayName =
      (mkAcc dn uuid).displayName ∧
    (PlatformAccessory.construct mkAcc none dn uuid cat).hap.UUID =
      (mkAcc dn uuid).UUID ∧
    (PlatformAccessory.construct mkAcc none dn uuid none).hap = mkAcc dn uuid := by
  refine ⟨rfl, rfl, ?_, ?_, rfl⟩ <;>
    cases hc : catTruthy cat <;>
      simp [PlatformAccessory.construct, hc]

/-- C6 counterexample: the re-emitted identify event is not payload-free —
a listener attached to the handle receives two runtime arguments, the
pairing flag and the backwards-compatibility empty callback (the emit call
on platformAccessory.ts line 88 passes them explicitly). -/
theorem identify_payload_counterexample :
    identifyForward [7] true =
      [IdentifyEv.delivered 7 [JsArg.boolArg true, JsArg.fnArg],
        IdentifyEv.completionCallback] ∧
    [JsArg.boolArg true, JsArg.fnArg] ≠ ([] : List JsArg) := by
  exact ⟨rfl, by decide⟩

/-- C6 as amended.  For any listener set and pairing flag, the forwarding
handler delivers the identify event to every attached listener exactly once
and in order — each delivery carrying the pairing flag and an inert callback
as its runtime arguments — and afterwards invokes the original completion
callback exactly once, as the final step; with zero listeners the trace is
just the completion callback, which is never dropped. -/
theorem identify_forwarding_amended (listeners : List Nat) (paired : Bool) :
    (identifyForward listeners paired).getLast? = some IdentifyEv.completionCallback ∧
    (identifyForward listeners paired).count IdentifyEv.completionCallback = 1 ∧
    (identifyForward listeners paired).filter
        (fun e => e ≠ IdentifyEv.completionCallback) =
      listeners.map (fun l => IdentifyEv.delivered l [JsArg.boolArg paired, JsArg.fnArg]) ∧
    identifyForward [] paired = [IdentifyEv.completionCallback] := by
  refine ⟨?_, ?_, ?_, rfl⟩
  · simp [identifyForward, emitToListeners]
  · simp [identifyForward, emitToListeners, List.count_append, List.count_eq_zero]
  · simp [identifyForward, emitToListeners, List.filter_append]

theorem evalOr_chain_eq (a b c d e : EVal) :
    evalOr (evalOr (evalOr (evalOr a b) c) d) e = firstTruthyE [a, b, c, d] e := by
  cases ha : a.truthy <;> cases hb : b.truthy <;> cases hc : c.truthy <;>
    cases hd : d.truthy <;> simp [evalOr, firstTruthyE, ha, hb, hc, hd]

theorem jsOrS_chain_eq (a b c : Option String) :
    jsOrS (jsOrS a b) c = firstTruthyS [a, b] c := by
  cases ha : strTruthy a <;> cases hb : strTruthy b <;>
    simp [jsOrS, firstTruthyS, ha, hb]

/-- C2 counterexample: `exports` is the string `""`, yet the resolved entry
point is the `main` fallback, not that string — the constructor's
`if (packageJSON.exports)` skips a falsy `exports`, so the claim "if exports
is a string the resolved entry point equals that string regardless of main"
fails on the empty string. -/
theorem entry_point_claim_counterexample :
    pkgEmptyExports.exports = some (ExportsField.str "") ∧
    Plugin.resolvedMain pkgEmptyExports = Except.ok "lib/entry.js" ∧
    ("lib/entry.js" : String) ≠ "" := by
  exact ⟨rfl, rfl, by decide⟩

/-- C2 as amended.  The constructor's entry-point resolution coincides, on
every manifest, with the selection procedure of the spec read under
JavaScript truthiness: a nonempty string `exports` wins outright; a table is
searched in order `import`, `require`, `node`, `default`, `"."`, skipping
falsy entries; a selected nested table prefers a truthy `import`, then
`require`, `node`, `default`; resolution fails with a TypeError when all
five table keys are falsy and the `"."` key is absent; in every remaining
case the entry point falls back to a nonempty `main`, else `"./index.js"`. -/
theorem entry_point_resolution (pkg : PackageJSON) :
    Plugin.resolvedMain pkg = specEntryPoint pkg := by
  rcases hx : pkg.exports with _ | e
  · simp [Plugin.resolvedMain, Plugin.mainAfterExports, specEntryPoint, hx, strTruthy]
  · cases e with
    | str s =>
      by_cases hs : s = "" <;>
        simp [Plugin.resolvedMain, Plugin.mainAfterExports, specEntryPoint, hx, strTruthy, hs]
    | tbl imp req node dflt dot =>
      have hch := evalOr_chain_eq imp req node dflt dot
      cases hc : firstTruthyE [imp, req, node, dflt] dot with
      | undef =>
        simp [Plugin.resolvedMain, Plugin.mainAfterExports, specEntryPoint, hx, hch, hc]
      | str s =>
        by_cases hs : s = "" <;>
          simp [Plugin.resolvedMain, Plugin.mainAfterExports, specEntryPoint, hx, hch, hc,
            strTruthy, hs]
      | tbl ni nr nn nd =>
        have hj := jsOrS_chain_eq nr nn nd
        by_cases hni : strTruthy ni = true
        · cases ni with
          | none => simp [strTruthy] at hni
          | some s =>
            have hs : ¬(s = "") := by simpa [strTruthy] using hni
            simp [Plugin.resolvedMain, Plugin.mainAfterExports, specEntryPoint, hx, hch, hc,
              strTruthy, hs]
        · have hni2 : strTruthy ni = false := by simpa using hni
          have hni3 : ni = none ∨ ni = some "" := by
            cases hn : ni with
            | none => exact Or.inl rfl
            | some s =>
              refine Or.inr ?_
              have hs0 : s = "" := by simpa [strTruthy, hn] using hni2
              rw [hs0]
          rcases hni3 with hn | hn <;> subst hn <;>
            (cases hsel : firstTruthyS [nr, nn] nd with
            | none =>
              simp [Plugin.resolvedMain, Plugin.mainAfterExports, specEntryPoint, hx, hch, hc,
                hj, hsel, strTruthy]
            | some s =>
              by_cases hs : s = "" <;>
                simp [Plugin.resolvedMain, Plugin.mainAfterExports, specEntryPoint, hx, hch, hc,
                  hj, hsel, strTruthy, hs])

theorem truthyLookup_none_of_lookup_none (r : Option (List (String × String))) (k : String)
    (h : lookupKV (r.getD []) k = none) : truthyLookup r k = none := by
  cases hr : r with
  | none => rfl
  | some l =>
    rw [hr] at h
    have h2 : lookupKV l k = none := by simpa using h
    simp [truthyLookup, h2]

theorem shim_engines_absent (pkg : PackageJSON)
    (he : lookupKV (pkg.engines.getD []) "homebridge" = none)
    (hp : lookupKV (pkg.peerDependencies.getD []) "homebridge" = none) :
    truthyLookup (applyPeerDepShim pkg).engines "homebridge" = none := by
  have ht : truthyLookup pkg.engines "homebridge" = none :=
    truthyLookup_none_of_lookup_none _ _ he
  unfold applyPeerDepShim
  by_cases hps : pkg.peerDependencies.isSome
  · simp only [hps, ht, Option.isNone_none, Bool.and_true, if_pos, Bool.and_self]
    rw [hp]
    simp [truthyLookup, he]
  · have hpn : pkg.peerDependencies.isSome = false := by simpa using hps
    simp [hpn, ht]

theorem shim_engines_from_peer (pkg : PackageJSON) (r : String)
    (he : lookupKV (pkg.engines.getD []) "homebridge" = none)
    (hp : lookupKV (pkg.peerDependencies.getD []) "homebridge" = some r) :
    (applyPeerDepShim pkg).engines =
      some (setKey (pkg.engines.getD []) "homebridge" r) := by
  have ht : truthyLookup pkg.engines "homebridge" = none :=
    truthyLookup_none_of_lookup_none _ _ he
  have hps : pkg.peerDependencies.isSome = true := by
    cases hpd : pkg.peerDependencies with
    | none => rw [hpd] at hp; simp [lookupKV] at hp
    | some l => rfl
  unfold applyPeerDepShim
  simp [hps, ht, hp]

theorem construct_loadContext (name path : String) (pkg : PackageJSON)
    (scope : Option String) (p : Plugin)
    (hcons : Plugin.construct name path pkg scope = Except.ok p) :
    p.loadContext = some { engines := (applyPeerDepShim pkg).engines,
                           dependencies := (applyPeerDepShim pkg).dependencies } ∧
    p.pluginPath = path := by
  unfold Plugin.construct at hcons
  cases hres : Plugin.resolvedMain pkg with
  | error e => rw [hres] at hcons; exact absurd hcons (by simp)
  | ok m =>
    rw [hres] at hcons
    simp only [Except.ok.injEq] at hcons
    rw [← hcons]
    exact ⟨rfl, rfl⟩

theorem load_missing_engines (p : Plugin) (ctx : LoadContext)
    (hb nd : String → Bool) (im : String → PluginModule)
    (hc : p.loadContext = some ctx)
    (he : truthyLookup ctx.engines "homebridge" = none) :
    Plugin.load p hb nd im =
      ({ p with loadContext := none }, [],
        Except.error (enginesMissingMsg p)) := by
  simp [Plugin.load, hc, he, enginesMissingMsg]

theorem load_past_gate (p : Plugin) (ctx : LoadContext)
    (hb nd : String → Bool) (im : String → PluginModule) (r : String)
    (hc : p.loadContext = some ctx)
    (he : truthyLookup ctx.engines "homebridge" = some r) :
    Effect.importModule (pathJoin p.pluginPath p.main) ∈ (Plugin.load p hb nd im).2.1 := by
  simp only [Plugin.load, hc, he]
  cases im (pathJoin p.pluginPath p.main) <;> simp

/-- C3 counterexample: the manifest declares a homebridge peer dependency
(with the range `""`, which semver accepts as "any version") and no
`engines.homebridge`; the shim synthesizes `engines.homebridge = ""`, yet
the fatal check still fails — contrary to the claim that synthesizing from
the declared peer dependency makes the fatal check pass. -/
theorem version_gating_counterexample :
    pkgPeerEmpty.peerDependencies = some [("homebridge", "")] ∧
    (Plugin.construct "x" "/p" pkgPeerEmpty none).map
      (fun p => ((Plugin.load p (fun _ => true) (fun _ => true)
        (fun _ => PluginModule.objNoDefault)).2.1,
        (Plugin.load p (fun _ => true) (fun _ => true)
          (fun _ => PluginModule.objNoDefault)).2.2)) =
      Except.ok ([], Except.error
        "Plugin /p does not contain the homebridge package in engines.") := by
  exact ⟨rfl, rfl⟩

/-- C3 as amended.  For a descriptor built from any manifest: when the
manifest declares neither `engines.homebridge` nor a homebridge peer
dependency, `load` fails with the descriptive missing-engines error and
produces no effect at all — in particular it imports no module; when the
manifest declares a homebridge peer dependency with a nonempty range and no
explicit `engines.homebridge`, the engine requirement is synthesized from
that range and the fatal check passes — `load` reaches the module import. -/
theorem version_gating_amended (name path : String) (pkg : PackageJSON)
    (scope : Option String) (p : Plugin) (hbSat nodeSat : String → Bool)
    (im : String → PluginModule) (r : String)
    (hcons : Plugin.construct name path pkg scope = Except.ok p) :
    ((lookupKV (pkg.engines.getD []) "homebridge" = none ∧
      lookupKV (pkg.peerDependencies.getD []) "homebridge" = none) →
      (Plugin.load p hbSat nodeSat im).2.1 = [] ∧
      (Plugin.load p hbSat nodeSat im).2.2 = Except.error (enginesMissingMsg p)) ∧
    ((lookupKV (pkg.engines.getD []) "homebridge" = none ∧
      lookupKV (pkg.peerDependencies.getD []) "homebridge" = some r ∧ r ≠ "") →
      Effect.importModule (pathJoin p.pluginPath p.main) ∈
        (Plugin.load p hbSat nodeSat im).2.1) := by
  obtain ⟨hctx, _⟩ := construct_loadContext name path pkg scope p hcons
  constructor
  · rintro ⟨he, hp⟩
    have hnone : truthyLookup (applyPeerDepShim pkg).engines "homebridge" = none :=
      shim_engines_absent pkg he hp
    rw [load_missing_engines p _ hbSat nodeSat im hctx hnone]
    exact ⟨rfl, rfl⟩
  · rintro ⟨he, hp, hr⟩
    have heng : (applyPeerDepShim pkg).engines =
        some (setKey (pkg.engines.getD []) "homebridge" r) :=
      shim_engines_from_peer pkg r he hp
    have hsome : truthyLookup (applyPeerDepShim pkg).engines "homebridge" = some r := by
      rw [heng]
      simp [truthyLookup, lookupKV_setKey_self, hr]
    exact load_past_gate p _ hbSat nodeSat im r hctx hsome

/-- Witness for C3: the all-absent manifest fails the gate with no effects,
and the manifest with peer range `"^1.0.0"` reaches the module import. -/
theorem version_gating_witness :
    Plugin.construct "example" "/plugins/example" pkgAllNone none = Except.ok emptyPlugin ∧
    Plugin.construct "example" "/plugins/example" pkgPeer none = Except.ok peerPlugin ∧
    (Plugin.load emptyPlugin (fun _ => true) (fun _ => true)
      (fun _ => PluginModule.objNoDefault)).2.1 = [] ∧
    (Plugin.load emptyPlugin (fun _ => true) (fun _ => true)
      (fun _ => PluginModule.objNoDefault)).2.2 =
        Except.error (enginesMissingMsg emptyPlugin) ∧
    Effect.importModule (pathJoin peerPlugin.pluginPath peerPlugin.main) ∈
      (Plugin.load peerPlugin (fun _ => true) (fun _ => true)
        (fun _ => PluginModule.objNoDefault)).2.1 := by
  have h1 := version_gating_amended "example" "/plugins/example" pkgAllNone none emptyPlugin
    (fun _ => true) (fun _ => true) (fun _ => PluginModule.objNoDefault) "" rfl
  have h2 := version_gating_amended "example" "/plugins/example" pkgPeer none peerPlugin
    (fun _ => true) (fun _ => true) (fun _ => PluginModule.objNoDefault) "^1.0.0" rfl
  have ha := h1.1 ⟨rfl, rfl⟩
  have hb := h2.2 ⟨rfl, rfl, by decide⟩
  exact ⟨rfl, rfl, ha.1, ha.2, hb⟩

/-- C9 counterexample: on `emptyPlugin` (whose context lacks
`engines.homebridge`) `load` fails at the version gate — before any
initializer-extraction step and with no module import — yet the load context
is already discarded, contradicting the claim that the discard happens only
after the initializer-extraction step. -/
theorem load_context_discard_counterexample :
    emptyPlugin.loadContext = some { engines := none, dependencies := none } ∧
    (Plugin.load emptyPlugin (fun _ => true) (fun _ => true)
      (fun _ => PluginModule.fnModule okInit)).2.2 =
        Except.error (enginesMissingMsg emptyPlugin) ∧
    (Plugin.load emptyPlugin (fun _ => true) (fun _ => true)
      (fun _ => PluginModule.fnModule okInit)).2.1 = [] ∧
    (Plugin.load emptyPlugin (fun _ => true) (fun _ => true)
      (fun _ => PluginModule.fnModule okInit)).1.loadContext = none := by
  exact ⟨rfl, rfl, rfl, rfl⟩

/-- C9 as amended.  The load context is consumed by at most one `load` call:
after any `load` call the context is absent — the discard happens at the
start of `load`, right after the presence assertion and before the version
gate, the import and the initializer extraction — and a `load` call that
finds no context fails immediately with the illegal-state assertion, doing
nothing. -/
theorem load_context_lifetime (p : Plugin) (hb nd : String → Bool)
    (im : String → PluginModule) :
    (Plugin.load p hb nd im).1.loadContext = none ∧
    (p.loadContext = none →
      Plugin.load p hb nd im = (p, [], Except.error illegalStateMsg)) := by
  constructor
  · cases hc : p.loadContext with
    | none => simp [Plugin.load, hc]
    | some ctx =>
      cases he : truthyLookup ctx.engines "homebridge" with
      | none => simp [Plugin.load, hc, he]
      | some r =>
        simp only [Plugin.load, hc, he]
        split <;> rfl
  · intro hc
    simp [Plugin.load, hc]

/-- Witness for C9: a `load` on a consumed descriptor hits the assertion and
changes nothing, and the context is absent after any load. -/
theorem load_context_lifetime_witness :
    loadedPlugin.loadContext = none ∧
    (Plugin.load loadedPlugin (fun _ => true) (fun _ => true)
      (fun _ => PluginModule.fnModule okInit)).1.loadContext = none ∧
    Plugin.load loadedPlugin (fun _ => true) (fun _ => true)
      (fun _ => PluginModule.fnModule okInit) =
      (loadedPlugin, [], Except.error illegalStateMsg) := by
  have h := load_context_lifetime loadedPlugin (fun _ => true) (fun _ => true)
    (fun _ => PluginModule.fnModule okInit)
  exact ⟨rfl, h.1, h.2 rfl⟩

/-- C1.  Serialization round trip: for a handle whose `associatedPlugin` and
`associatedPlatform` are set, whose mirror fields agree with its delegate
(as the constructor and the rename operation maintain), and whose delegate
serialization faithfully records the category while the composite
delegate deserialization restores display name and identifier, the handle
rebuilt by `deserialize` from `serialize`'s record has the same
`displayName`, `UUID`, `category`, `context`, `associatedPlugin` and
`associatedPlatform`. -/
theorem serialization_round_trip (accSer : Accessory → SerializedAccessory)
    (accDe : SerializedAccessory → Accessory) (mkAcc : String → String → Accessory)
    (slot : Option Accessory) (pa : PlatformAccessory) (plg plt : String)
    (hplg : pa.associatedPlugin = some plg)
    (hplt : pa.associatedPlatform = some plt)
    (hmirror : pa.UUID = pa.hap.UUID ∧ pa.category = pa.hap.category)
    (hDn : ∀ a, (accDe (accSer a)).displayName = a.displayName)
    (hId : ∀ a, (accDe (accSer a)).UUID = a.UUID)
    (hCat : ∀ a, (accSer a).category = a.category) :
    (PlatformAccessory.deserialize accDe mkAcc slot
      (PlatformAccessory.serialize accSer pa).2).2.displayName = pa.displayName ∧
    (PlatformAccessory.deserialize accDe mkAcc slot
      (PlatformAccessory.serialize accSer pa).2).2.UUID = pa.UUID ∧
    (PlatformAccessory.deserialize accDe mkAcc slot
      (PlatformAccessory.serialize accSer pa).2).2.category = pa.category ∧
    (PlatformAccessory.deserialize accDe mkAcc slot
      (PlatformAccessory.serialize accSer pa).2).2.context = pa.context ∧
    (PlatformAccessory.deserialize accDe mkAcc slot
      (PlatformAccessory.serialize accSer pa).2).2.associatedPlugin = some plg ∧
    (PlatformAccessory.deserialize accDe mkAcc slot
      (PlatformAccessory.serialize accSer pa).2).2.associatedPlatform = some plt := by
  obtain ⟨hU, hC⟩ := hmirror
  refine ⟨?_, ?_, ?_, rfl, ?_, ?_⟩
  · simpa [PlatformAccessory.deserialize, PlatformAccessory.serialize,
      PlatformAccessory.construct, catTruthy] using hDn { pa.hap with displayName := pa.displayName }
  · have h := hId { pa.hap with displayName := pa.displayName }
    simp [PlatformAccessory.deserialize, PlatformAccessory.serialize,
      PlatformAccessory.construct, catTruthy, h, hU]
  · have h := hCat { pa.hap with displayName := pa.displayName }
    simp [PlatformAccessory.deserialize, PlatformAccessory.serialize,
      PlatformAccessory.construct, catTruthy, h, hC]
  · simp [PlatformAccessory.deserialize, PlatformAccessory.serialize, hplg]
  · simp [PlatformAccessory.deserialize, PlatformAccessory.serialize, hplt]

/-- Witness for C1 at concrete delegate codecs and a concrete renamed,
registered handle. -/
theorem serialization_round_trip_witness :
    paW.associatedPlugin = some "homebridge-example" ∧
    paW.associatedPlatform = some "ExamplePlatform" ∧
    paW.UUID = paW.hap.UUID ∧ paW.category = paW.hap.category ∧
    (PlatformAccessory.deserialize accDe0 mkAcc0 none
      (PlatformAccessory.serialize accSer0 paW).2).2.displayName = "Lamp renamed" ∧
    (PlatformAccessory.deserialize accDe0 mkAcc0 none
      (PlatformAccessory.serialize accSer0 paW).2).2.UUID = "uuid-1" ∧
    (PlatformAccessory.deserialize accDe0 mkAcc0 none
      (PlatformAccessory.serialize accSer0 paW).2).2.category = 5 ∧
    (PlatformAccessory.deserialize accDe0 mkAcc0 none
      (PlatformAccessory.serialize accSer0 paW).2).2.context = [("foo", "bar")] ∧
    (PlatformAccessory.deserialize accDe0 mkAcc0 none
      (PlatformAccessory.serialize accSer0 paW).2).2.associatedPlugin =
        some "homebridge-example" ∧
    (PlatformAccessory.deserialize accDe0 mkAcc0 none
      (PlatformAccessory.serialize accSer0 paW).2).2.associatedPlatform =
        some "ExamplePlatform" := by
  have h := serialization_round_trip accSer0 accDe0 mkAcc0 none paW
    "homebridge-example" "ExamplePlatform" rfl rfl ⟨rfl, rfl⟩
    (fun a => rfl) (fun a => rfl) (fun a => rfl)
  exact ⟨rfl, rfl, rfl, rfl, h.1, h.2.1, h.2.2.1, h.2.2.2.1, h.2.2.2.2.1, h.2.2.2.2.2⟩
